import Mathlib

/-!
Verification development for the jiutian proxy server (`app.js`, second
revision in the repository, the one that adds the Ollama-compatible
endpoints).  The JavaScript handlers are shallowly embedded: JSON values
become an inductive `Json` type, JavaScript truthiness / member access /
strict equality are modelled explicitly, thrown exceptions become
`Except String`, and each Express route handler becomes a pure Lean
function from its inputs (request body, configured API key, upstream
events) to the observable outputs (HTTP actions, downstream frames).
-/

/-! ## JSON values and JavaScript value semantics -/

/-- A JavaScript/JSON value.  `undefined` is the JavaScript undefined value (the result of
reading an absent property); the parser never produces it.  Numbers are
modelled as rationals: every numeric literal appearing in the program
(`0.7`, `0.9`, durations, lengths) is rational, and the upstream protocol
only ever carries integers. -/
inductive Json where
  | undefined : Json
  | null : Json
  | bool : Bool → Json
  | num : Rat → Json
  | str : String → Json
  | arr : List Json → Json
  | obj : List (String × Json) → Json
deriving Repr

/-- JavaScript truthiness of a value. -/
def truthy : Json → Bool
  | .undefined => false
  | .null => false
  | .bool b => b
  | .num n => n != 0
  | .str s => s != ""
  | .arr _ => true
  | .obj _ => true

/-- JavaScript `String(v)` / template-literal coercion.  Array rendering is
abbreviated to its element-free form; the program only ever coerces strings,
for which this is exact. -/
def jsToString : Json → String
  | .undefined => "undefined"
  | .null => "null"
  | .bool b => if b then "true" else "false"
  | .num n => if n.den = 1 then toString n.num else toString n
  | .str s => s
  | .arr _ => ""
  | .obj _ => "[object Object]"

/-- JavaScript property read `v.k`.  Reading from `undefined` or `null`
throws a `TypeError`; reading a missing property yields `undefined`;
`.length` works on arrays and strings. -/
def jsGet : Json → String → Except String Json
  | .undefined, k => .error ("TypeError: Cannot read properties of undefined (reading " ++ k ++ ")")
  | .null, k => .error ("TypeError: Cannot read properties of null (reading " ++ k ++ ")")
  | .obj fs, k => .ok ((fs.lookup k).getD .undefined)
  | .arr xs, k => .ok (if k == "length" then .num xs.length else .undefined)
  | .str s, k => .ok (if k == "length" then .num s.length else .undefined)
  | .bool _, _ => .ok .undefined
  | .num _, _ => .ok .undefined

/-- JavaScript index read `v[0]`. -/
def jsIndex0 : Json → Except String Json
  | .undefined => .error "TypeError: Cannot read properties of undefined (reading 0)"
  | .null => .error "TypeError: Cannot read properties of null (reading 0)"
  | .arr xs => .ok (xs.head?.getD .undefined)
  | .obj fs => .ok ((fs.lookup "0").getD .undefined)
  | .str s => .ok (match s.data with
      | [] => .undefined
      | c :: _ => .str (String.singleton c))
  | .bool _ => .ok .undefined
  | .num _ => .ok .undefined

/-- JavaScript comparison `v > 0` as it occurs in `data.choices.length > 0`
(`undefined > 0` is `false`; booleans coerce to numbers). -/
def jsGtZero : Json → Bool
  | .num n => decide (0 < n)
  | .bool b => b
  | _ => false

/-- JavaScript strict equality against a string literal (`v === "lit"`). -/
def jsStrictEqStr : Json → String → Bool
  | .str s, lit => s == lit
  | _, _ => false

/-- JavaScript strict equality against the literal `true` (`v === true`). -/
def jsStrictEqTrue : Json → Bool
  | .bool b => b
  | _ => false

/-- JavaScript `a || b` (value-returning disjunction). -/
def jsOr (a b : Json) : Json :=
  if truthy a then a else b

/-- JavaScript `s.startsWith(pre)` (computed on the character sequence). -/
def jsStartsWith (s pre : String) : Bool :=
  pre.data.isPrefixOf s.data

def splitOnDotAux (cur : List Char) : List Char → List String
  | [] => [String.mk cur.reverse]
  | c :: cs =>
    if c == '.' then String.mk cur.reverse :: splitOnDotAux [] cs
    else splitOnDotAux (c :: cur) cs

/-- JavaScript `s.split(".")`: splits at every dot; a string without a dot
yields the one-element list holding the whole string. -/
def jsSplitDot (s : String) : List String :=
  splitOnDotAux [] s.data

/-- A parsed request body as delivered by `express.json()`: a JSON object,
i.e. a field list. -/
abbrev JsObj := List (String × Json)

/-- Property read on a request body object (`req.body.k`). -/
def objGet (o : JsObj) (k : String) : Json :=
  (o.lookup k).getD .undefined

/-! ## A model of `JSON.parse`

The handlers call `JSON.parse` on the chunk text after the `data: ` prefix.
We embed a recursive-descent JSON parser (fuel-based for termination).
Numeric literals are restricted to integers, which is all the upstream
protocol produces. -/

/-- The `\x7b` character (left curly brace). -/
def lcurly : Char := Char.ofNat 123

/-- The `\x7d` character (right curly brace). -/
def rcurly : Char := Char.ofNat 125

/-- The whitespace characters the JSON grammar allows between tokens. -/
def jsonWs : List Char := [' ', '\t', '\n', '\r']

def isWsChar (c : Char) : Bool := jsonWs.contains c

def skipWs : List Char → List Char
  | [] => []
  | c :: cs => if isWsChar c then skipWs cs else c :: cs

/-- Consume an exact character sequence. -/
def dropExact : List Char → List Char → Option (List Char)
  | [], cs => some cs
  | k :: ks, c :: cs => if c == k then dropExact ks cs else none
  | _ :: _, [] => none

/-- Value of one hexadecimal digit (working on the code point). -/
def hexDigitValue (c : Char) : Option Nat :=
  let n := c.toNat
  if 48 ≤ n ∧ n ≤ 57 then some (n - 48)
  else if 97 ≤ n ∧ n ≤ 102 then some (n - 87)
  else if 65 ≤ n ∧ n ≤ 70 then some (n - 55)
  else none

/-- The single-character escape table of JSON string literals. -/
def escTable : List (Char × Char) :=
  [('"', '"'), ('\\', '\\'), ('/', '/'), ('n', '\n'),
   ('t', '\t'), ('r', '\r'), ('b', '\x08'), ('f', '\x0c')]

def escCharOf (c : Char) : Option Char := escTable.lookup c

/-- Parse the remainder of a JSON string literal (opening quote already
consumed); returns the decoded characters and the rest of the input. -/
def parseStrChars : List Char → Option (List Char × List Char)
  | [] => none
  | c :: cs =>
    if c == '"' then some ([], cs)
    else if c == '\\' then
      match cs with
      | [] => none
      | e :: cs2 =>
        if e == 'u' then
          match cs2 with
          | h1 :: h2 :: h3 :: h4 :: cs3 =>
            match (do
              let v1 ← hexDigitValue h1
              let v2 ← hexDigitValue h2
              let v3 ← hexDigitValue h3
              let v4 ← hexDigitValue h4
              pure ((v1 <<< 12) + (v2 <<< 8) + (v3 <<< 4) + v4) : Option Nat) with
            | some v =>
              (parseStrChars cs3).map (fun p => (Char.ofNat v :: p.1, p.2))
            | none => none
          | _ => none
        else
          match escCharOf e with
          | some ec => (parseStrChars cs2).map (fun p => (ec :: p.1, p.2))
          | none => none
    else (parseStrChars cs).map (fun p => (c :: p.1, p.2))

def parseDigitsAux (acc : Nat) : List Char → Nat × List Char
  | [] => (acc, [])
  | c :: cs =>
    if c.isDigit then parseDigitsAux (10 * acc + (c.toNat - 48)) cs
    else (acc, c :: cs)

/-- Parse one or more decimal digits. -/
def parseDigits : List Char → Option (Nat × List Char)
  | [] => none
  | c :: cs =>
    if c.isDigit then some (parseDigitsAux (c.toNat - 48) cs)
    else none

/-- Parse an integer literal (optional leading minus). -/
def parseIntLit : List Char → Option (Int × List Char)
  | [] => none
  | c :: cs =>
    if c == '-' then (parseDigits cs).map (fun p => (-(p.1 : Int), p.2))
    else (parseDigits (c :: cs)).map (fun p => ((p.1 : Int), p.2))

mutual

def parseVal : Nat → List Char → Option (Json × List Char)
  | 0, _ => none
  | Nat.succ fuel, cs0 =>
    match skipWs cs0 with
    | [] => none
    | c :: r =>
      if c == '"' then
        match parseStrChars r with
        | some (sc, r2) => some (.str (String.mk sc), r2)
        | none => none
      else if c == '[' then
        match skipWs r with
        | [] => none
        | c2 :: r2 =>
          if c2 == ']' then some (.arr [], r2)
          else
            match parseElems fuel (c2 :: r2) with
            | some (vs, r3) => some (.arr vs, r3)
            | none => none
      else if c == lcurly then
        match skipWs r with
        | [] => none
        | c2 :: r2 =>
          if c2 == rcurly then some (.obj [], r2)
          else
            match parseFields fuel (c2 :: r2) with
            | some (fs, r3) => some (.obj fs, r3)
            | none => none
      else if c == 'n' then (dropExact ['u', 'l', 'l'] r).map (fun r2 => (Json.null, r2))
      else if c == 't' then (dropExact ['r', 'u', 'e'] r).map (fun r2 => (Json.bool true, r2))
      else if c == 'f' then (dropExact ['a', 'l', 's', 'e'] r).map (fun r2 => (Json.bool false, r2))
      else
        match parseIntLit (c :: r) with
        | some (n, r2) =>
          match r2 with
          | [] => some (.num (n : Rat), r2)
          | c3 :: _ =>
            if c3 == '.' || c3 == 'e' || c3 == 'E' then none
            else some (.num (n : Rat), r2)
        | none => none

def parseElems : Nat → List Char → Option (List Json × List Char)
  | 0, _ => none
  | Nat.succ fuel, cs =>
    match parseVal fuel cs with
    | some (v, r) =>
      match skipWs r with
      | [] => none
      | c :: r2 =>
        if c == ',' then
          match parseElems fuel r2 with
          | some (vs, r3) => some (v :: vs, r3)
          | none => none
        else if c == ']' then some ([v], r2)
        else none
    | none => none

def parseFields : Nat → List Char → Option (List (String × Json) × List Char)
  | 0, _ => none
  | Nat.succ fuel, cs =>
    match skipWs cs with
    | [] => none
    | c :: r =>
      if c == '"' then
        match parseStrChars r with
        | some (kc, r2) =>
          match skipWs r2 with
          | [] => none
          | c3 :: r3 =>
            if c3 == ':' then
              match parseVal fuel r3 with
              | some (v, r4) =>
                match skipWs r4 with
                | [] => none
                | c5 :: r5 =>
                  if c5 == ',' then
                    match parseFields fuel r5 with
                    | some (fs, r6) => some ((String.mk kc, v) :: fs, r6)
                    | none => none
                  else if c5 == rcurly then some ([(String.mk kc, v)], r5)
                  else none
              | none => none
            else none
        | none => none
      else none

end

/-- The model of `JSON.parse s`: `some` value on success, `none` when the
call would throw a `SyntaxError` (input not a single complete JSON value). -/
def jsonParse (s : String) : Option Json :=
  match parseVal (2 * s.length + 2) s.data with
  | some (v, rest) => if (skipWs rest).isEmpty then some v else none
  | none => none

example : jsonParse "5" = some (Json.num 5) := rfl
example : jsonParse " \x7b\"a\":[1,true,\"x\"]\x7d " =
    some (Json.obj [("a", Json.arr [Json.num 1, Json.bool true, Json.str "x"])]) := rfl
example : jsonParse "\x7b\"a\":" = none := rfl

/-! ## Token minter (`generateToken`, app.js lines 291-313)

`generateToken` splits the configured API key at `"."` into an identifier
and a signing secret and calls `jwt.sign` from the `jsonwebtoken` library
with algorithm HS256 and an explicit header.  The library interface is
modelled shallowly: a signed token is the standard three-part compact
structure (protected header, claim set, signature); base64url rendering is
abstracted away and the HMAC-SHA256 signature is kept symbolically as the
algorithm applied to the signing input (header and payload) under the key.
`jwt.sign` throws when the secret is missing or empty, which is exactly the
behaviour of `jsonwebtoken` for a falsy `secretOrPrivateKey`. -/

/-- A message authentication code, kept symbolically:
`hmacSha256 header payload key` is the HMAC-SHA256 tag over the encoded
header and payload under `key`. -/
inductive Mac where
  | hmacSha256 : List (String × Json) → List (String × Json) → String → Mac
deriving Repr

/-- A signed token in the standard three-part compact form:
protected header claims, payload claims, and the signature. -/
structure SignedToken where
  headerClaims : List (String × Json)
  payloadClaims : List (String × Json)
  mac : Mac
deriving Repr

/-- Model of `jwt.sign(payload, secret, \x7balgorithm: "HS256", header\x7d)`:
throws when the secret is absent or empty, otherwise produces the
three-part token signed with HMAC-SHA256 under the secret. -/
def jwtSign (payload : List (String × Json)) (secret : Option String)
    (header : List (String × Json)) : Except String SignedToken :=
  match secret with
  | none => .error "secretOrPrivateKey must have a value"
  | some k =>
    if k = "" then .error "secretOrPrivateKey must have a value"
    else .ok { headerClaims := header, payloadClaims := payload,
               mac := .hmacSha256 header payload k }

/-- The header object passed by `generateToken`:
`\x7balg: "HS256", typ: "JWT", sign_type: "SIGN"\x7d`. -/
def jwtHeaderFields : List (String × Json) :=
  [("alg", Json.str "HS256"), ("typ", Json.str "JWT"), ("sign_type", Json.str "SIGN")]

/-- Model of `generateToken(apiKey, expSeconds)` (app.js lines 291-313).
`now` is `Math.floor(Date.now() / 1000)` at the call (the two reads of the
clock in the body are coalesced; they are the same second in practice and
nothing in the program depends on the difference).  The `catch` block maps
any thrown error to `new Error("无效的 API Key")`. -/
def generateToken (apiKey : String) (expSeconds : Nat) (now : Nat) :
    Except String SignedToken :=
  let parts := jsSplitDot apiKey
  let id := parts.headD ""
  let secret := parts.get? 1
  let payload := [("api_key", Json.str id),
                  ("exp", Json.num ((now + expSeconds : Nat) : Rat)),
                  ("timestamp", Json.num ((now : Nat) : Rat))]
  match jwtSign payload secret jwtHeaderFields with
  | .ok tok => .ok tok
  | .error _ => .error "无效的 API Key"

/-! ## Downstream frames of the Ollama-compatible dialects

The streaming `/api/generate` handler writes JSON objects of two shapes
(app.js lines 612-617 and 628-640); the compat `/api/chat` handler writes
the analogous chat shapes (lines 771-779 and 790-803).  Each frame is
serialized as `data: ` + JSON + blank line; we model the object fields
(`created_at`, a wall-clock string, is not modelled: nothing observable in
the claims depends on it). -/

/-- A downstream frame of the GENERATE_COMPAT dialect.  Fields that the
terminal frame carries and content frames omit are `Option`s. -/
structure GenFrame where
  model : String
  response : Json
  done : Bool
  context : Option (List Int)
  total_duration : Option Int
  load_duration : Option Int
  prompt_eval_count : Option Int
  prompt_eval_duration : Option Int
  eval_count : Option Int
  eval_duration : Option Int
deriving Repr

/-- The non-terminal frame written for every parsed chunk
(app.js lines 612-620): `\x7bmodel, created_at, response, done: false\x7d`. -/
def genContentFrame (responseText : Json) : GenFrame :=
  { model := "jiutian-lan", response := responseText, done := false,
    context := none, total_duration := none, load_duration := none,
    prompt_eval_count := none, prompt_eval_duration := none,
    eval_count := none, eval_duration := none }

/-- The terminal frame written on the finish marker (app.js lines 628-640),
with the placeholder context and timing constants from the source. -/
def genFinalFrame (prompt fullResponse : String) : GenFrame :=
  { model := "jiutian-lan", response := Json.str "", done := true,
    context := some [1, 2, 3], total_duration := some 1000000000,
    load_duration := some 100000000,
    prompt_eval_count := some (prompt.length : Int),
    prompt_eval_duration := some 200000000,
    eval_count := some (fullResponse.length : Int),
    eval_duration := some 700000000 }

/-- A downstream frame of the CHAT_COMPAT dialect.  The `message` object is
flattened into its `role` and `content` fields.  This shape has no
`context` and no `prompt_eval_count` field (lines 790-803). -/
structure ChatFrame where
  model : String
  messageRole : String
  messageContent : Json
  done : Bool
  total_duration : Option Int
  load_duration : Option Int
  prompt_eval_duration : Option Int
  eval_count : Option Int
  eval_duration : Option Int
deriving Repr

/-- Non-terminal CHAT_COMPAT frame (app.js lines 771-782). -/
def chatContentFrame (contentDelta : Json) : ChatFrame :=
  { model := "jiutian-lan", messageRole := "assistant",
    messageContent := contentDelta, done := false,
    total_duration := none, load_duration := none,
    prompt_eval_duration := none, eval_count := none, eval_duration := none }

/-- Terminal CHAT_COMPAT frame (app.js lines 790-805). -/
def chatFinalFrame (fullContent : String) : ChatFrame :=
  { model := "jiutian-lan", messageRole := "assistant",
    messageContent := Json.str "", done := true,
    total_duration := some 1000000000, load_duration := some 100000000,
    prompt_eval_duration := some 200000000,
    eval_count := some (fullContent.length : Int),
    eval_duration := some 700000000 }

/-! ## The streaming `/api/generate` data handler (app.js lines 595-649) -/

/-- Mutable closure state of the `/api/generate` stream handler:
`fullResponse` accumulates delta texts; `ended` records that `res.end()`
has run. -/
structure GenState where
  fullResponse : String
  ended : Bool
deriving Repr

/-- Lines 603-609 of app.js: compute `responseText` and the updated
`fullResponse`.  Mirrors the JavaScript exactly, including truthiness and
the `TypeError`s thrown by property reads on `undefined`/`null` (which the
surrounding `try` catches). -/
def genExtractText (fullResponse : String) (data : Json) :
    Except String (Json × String) := do
  let choices ← jsGet data "choices"
  if truthy choices then
    let len ← jsGet choices "length"
    if jsGtZero len then
      let c0 ← jsIndex0 choices
      let delta ← jsGet c0 "delta"
      if truthy delta then
        let t ← jsGet delta "text"
        if truthy t then
          pure (t, fullResponse ++ jsToString t)
        else pure (Json.str "", fullResponse)
      else pure (Json.str "", fullResponse)
    else pure (Json.str "", fullResponse)
  else pure (Json.str "", fullResponse)

/-- Lines 623-625 / 785-787 of app.js: the finish test
`data.choices && data.choices[0].delta && data.choices[0].delta.status === "finish"`
(note: no `.length` guard, unlike the extraction above). -/
def isFinishData (data : Json) : Except String Bool := do
  let choices ← jsGet data "choices"
  if truthy choices then
    let c0 ← jsIndex0 choices
    let delta ← jsGet c0 "delta"
    if truthy delta then
      let s ← jsGet delta "status"
      pure (jsStrictEqStr s "finish")
    else pure false
  else pure false

/-- The body of the `/api/generate` data callback after `JSON.parse`
succeeded (lines 602-644).  Returns the new state and the frames written by
this invocation, in order.  A thrown `TypeError` aborts the rest of the
body (the `catch` at line 646 just logs) but keeps the writes already
made. -/
def genProcessData (prompt : String) (st : GenState) (data : Json) :
    GenState × List GenFrame :=
  match genExtractText st.fullResponse data with
  | .error _ => (st, [])
  | .ok (responseText, full2) =>
    let frame1 := genContentFrame responseText
    match isFinishData data with
    | .error _ => ({ fullResponse := full2, ended := st.ended }, [frame1])
    | .ok false => ({ fullResponse := full2, ended := st.ended }, [frame1])
    | .ok true =>
      ({ fullResponse := full2, ended := true },
       [frame1, genFinalFrame prompt full2])

/-- The full data callback (lines 595-649): `chunk.toString()` must start
with `data: `; the rest is `JSON.parse`d; a parse failure is caught and the
chunk is dropped; a chunk without the prefix is silently ignored. -/
def genHandleChunk (prompt : String) (st : GenState) (chunkText : String) :
    GenState × List GenFrame :=
  if jsStartsWith chunkText "data: " then
    match jsonParse (chunkText.drop 6) with
    | some data => genProcessData prompt st data
    | none => (st, [])
  else (st, [])

/-- Run the `/api/generate` stream session from a state over a list of
upstream chunks.  Frames written after `res.end()` has run are not received
by the client, so they are not collected. -/
def genRunFrom (prompt : String) (st : GenState) :
    List String → GenState × List GenFrame
  | [] => (st, [])
  | chunk :: rest =>
    let step := genHandleChunk prompt st chunk
    let delivered := if st.ended then [] else step.2
    let tail := genRunFrom prompt step.1 rest
    (tail.1, delivered ++ tail.2)

/-- Downstream frames received by the client for a whole `/api/generate`
streaming session over the given chunks. -/
def genRun (prompt : String) (chunks : List String) : List GenFrame :=
  (genRunFrom prompt { fullResponse := "", ended := false } chunks).2

/-- Session at the granularity of parsed upstream events: each event is one
well-formed `data: `-prefixed chunk whose JSON is `data`. -/
def genRunEventsFrom (prompt : String) (st : GenState) :
    List Json → GenState × List GenFrame
  | [] => (st, [])
  | d :: ds =>
    let step := genProcessData prompt st d
    let delivered := if st.ended then [] else step.2
    let tail := genRunEventsFrom prompt step.1 ds
    (tail.1, delivered ++ tail.2)

/-- Downstream frames of a `/api/generate` streaming session whose upstream
events arrive one per chunk, already parsed. -/
def genRunEvents (prompt : String) (events : List Json) : List GenFrame :=
  (genRunEventsFrom prompt { fullResponse := "", ended := false } events).2

/-! ## The streaming compat `/api/chat` data handler (app.js lines 755-812) -/

/-- Mutable closure state of the compat `/api/chat` stream handler. -/
structure ChatState where
  fullContent : String
  ended : Bool
deriving Repr

/-- Lines 763-768 of app.js: compute `contentDelta` and the updated
`fullContent` (one short-circuit chain, reading `delta.content`). -/
def chatExtractContent (fullContent : String) (data : Json) :
    Except String (Json × String) := do
  let choices ← jsGet data "choices"
  if truthy choices then
    let len ← jsGet choices "length"
    if jsGtZero len then
      let c0 ← jsIndex0 choices
      let delta ← jsGet c0 "delta"
      if truthy delta then
        let c ← jsGet delta "content"
        if truthy c then
          pure (c, fullContent ++ jsToString c)
        else pure (Json.str "", fullContent)
      else pure (Json.str "", fullContent)
    else pure (Json.str "", fullContent)
  else pure (Json.str "", fullContent)

/-- The body of the compat `/api/chat` data callback after `JSON.parse`
succeeded (lines 760-807). -/
def chatProcessData (st : ChatState) (data : Json) :
    ChatState × List ChatFrame :=
  match chatExtractContent st.fullContent data with
  | .error _ => (st, [])
  | .ok (contentDelta, full2) =>
    let frame1 := chatContentFrame contentDelta
    match isFinishData data with
    | .error _ => ({ fullContent := full2, ended := st.ended }, [frame1])
    | .ok false => ({ fullContent := full2, ended := st.ended }, [frame1])
    | .ok true =>
      ({ fullContent := full2, ended := true },
       [frame1, chatFinalFrame full2])

/-- The full compat `/api/chat` data callback (lines 755-812). -/
def chatHandleChunk (st : ChatState) (chunkText : String) :
    ChatState × List ChatFrame :=
  if jsStartsWith chunkText "data: " then
    match jsonParse (chunkText.drop 6) with
    | some data => chatProcessData st data
    | none => (st, [])
  else (st, [])

def chatRunFrom (st : ChatState) : List String → ChatState × List ChatFrame
  | [] => (st, [])
  | chunk :: rest =>
    let step := chatHandleChunk st chunk
    let delivered := if st.ended then [] else step.2
    let tail := chatRunFrom step.1 rest
    (tail.1, delivered ++ tail.2)

/-- Downstream frames received for a whole compat `/api/chat` streaming
session over the given chunks. -/
def chatRun (chunks : List String) : List ChatFrame :=
  (chatRunFrom { fullContent := "", ended := false } chunks).2

def chatRunEventsFrom (st : ChatState) : List Json → ChatState × List ChatFrame
  | [] => (st, [])
  | d :: ds =>
    let step := chatProcessData st d
    let delivered := if st.ended then [] else step.2
    let tail := chatRunEventsFrom step.1 ds
    (tail.1, delivered ++ tail.2)

/-- Downstream frames of a compat `/api/chat` streaming session whose
upstream events arrive one per chunk, already parsed. -/
def chatRunEvents (events : List Json) : List ChatFrame :=
  (chatRunEventsFrom { fullContent := "", ended := false } events).2

/-! ## Upstream events

The provider stream delivers incremental deltas for output slot 0 and a
final delta carrying `status: "finish"` (the usage object rides on the
finish frame).  The JSON shapes below follow the provider examples in the
repository's usage document; the plain-completion endpoint carries the
delta text at `choices[0].delta.text`, the chat endpoint at
`choices[0].delta.content`. -/

/-- A typed upstream event: an incremental text delta for slot 0, or the
finish marker. -/
inductive UEvent where
  | textDelta : String → UEvent
  | finish : UEvent
deriving Repr, DecidableEq

/-- The text carried by an event (empty for the finish marker). -/
def UEvent.text : UEvent → String
  | .textDelta t => t
  | .finish => ""

/-- The parsed JSON object of an event on the plain-completion endpoint
(delta text at `choices[0].delta.text`). -/
def genEventJson : UEvent → Json
  | .textDelta t =>
    .obj [("created", .num 1725502748), ("model", .str "jiutian-lan"),
          ("choices", .arr [.obj [("delta",
            .obj [("index", .num 0), ("text", .str t),
                  ("type", .str "text"), ("status", .str "incr")])]]),
          ("object", .str "chat.completion.chunk")]
  | .finish =>
    .obj [("created", .num 1725502748),
          ("usage", .obj [("completion_tokens", .num 6),
                          ("prompt_tokens", .num 15), ("total_tokens", .num 21)]),
          ("model", .str "jiutian-lan"),
          ("choices", .arr [.obj [("delta",
            .obj [("finish_reason", .str "stop"), ("index", .num 0),
                  ("type", .str "text"), ("status", .str "finish")])]]),
          ("object", .str "chat.completion.chunk")]

/-- The parsed JSON object of an event on the chat endpoint (delta text at
`choices[0].delta.content`). -/
def chatEventJson : UEvent → Json
  | .textDelta t =>
    .obj [("created", .num 1725502748), ("model", .str "jiutian-lan"),
          ("choices", .arr [.obj [("delta",
            .obj [("index", .num 0), ("content", .str t),
                  ("type", .str "text"), ("status", .str "incr")])]]),
          ("object", .str "chat.completion.chunk")]
  | .finish =>
    .obj [("created", .num 1725502748),
          ("usage", .obj [("completion_tokens", .num 6),
                          ("prompt_tokens", .num 15), ("total_tokens", .num 21)]),
          ("model", .str "jiutian-lan"),
          ("choices", .arr [.obj [("delta",
            .obj [("finish_reason", .str "stop"), ("index", .num 0),
                  ("type", .str "text"), ("status", .str "finish")])]]),
          ("object", .str "chat.completion.chunk")]

/-! ## Route registration and dispatch

The app registers six routes in source order (second revision of app.js):
`POST /api/completions` (line 345), `POST /api/chat` (line 430),
`GET /api/tags` (line 518), `POST /api/generate` (line 545),
`POST /api/chat` again (line 707, the Ollama-compatible variant), and
`GET /health` (line 869).  None of these handlers calls `next()`, so
Express dispatches a request to the first route whose method and path
match; a later registration on the same method and path is unreachable. -/

inductive RouteHandler where
  | completionsMain
  | chatMain
  | tagsList
  | generateCompat
  | chatCompat
  | healthCheck
deriving Repr, DecidableEq

/-- The registered routes, in registration order. -/
def appRoutes : List (String × String × RouteHandler) :=
  [("POST", "/api/completions", RouteHandler.completionsMain),
   ("POST", "/api/chat", RouteHandler.chatMain),
   ("GET", "/api/tags", RouteHandler.tagsList),
   ("POST", "/api/generate", RouteHandler.generateCompat),
   ("POST", "/api/chat", RouteHandler.chatCompat),
   ("GET", "/health", RouteHandler.healthCheck)]

/-- Express dispatch: the first matching registration handles the request. -/
def dispatch (method path : String) : Option RouteHandler :=
  (appRoutes.find? (fun r => r.1 == method && r.2.1 == path)).map (fun r => r.2.2)

/-! ## Route handler pre-stream behaviour

For each POST handler we model what it does with a request body up to and
including the decision to contact the upstream provider: either it answers
with a JSON error (status and body), or it opens an upstream connection
(URL, forwarded body, streaming flag), or — in a streaming handler whose
`catch` fires — it writes a single `data: `-framed error object.  What
happens on the upstream stream afterwards is the session model above. -/

inductive PreAction where
  | jsonError : Nat → List (String × Json) → PreAction
  | upstreamCall : String → Json → Bool → PreAction
  | streamErrorFrame : List (String × Json) → PreAction
deriving Repr

/-- Stack text of a thrown error, abstracted as a function of its message
(only its presence or absence in a response is observable in the spec). -/
def stackOf (msg : String) : String := "Error: " ++ msg

/-- The 500 body of the non-streaming catch blocks at lines 369-376 and
454-461: `detail` is always the error message; `stack` is present exactly
in development mode (a JSON-stringified `undefined` property is dropped). -/
def catch500Body (label : String) (dev : Bool) (msg : String) :
    List (String × Json) :=
  [("error", Json.str label), ("detail", Json.str msg)] ++
    (if dev then [("stack", Json.str (stackOf msg))] else [])

/-- The `data: `-framed error object written by the streaming catch blocks
at lines 420-424 and 505-509. -/
def streamCatchBody (msg : String) : List (String × Json) :=
  [("error", Json.str "九天模型调用失败"), ("detail", Json.str msg)]

/-- The `data: `-framed error object written by the stream `error`-event
handlers at lines 415-418, 500-503, 652-655 and 815-818. -/
def streamErrorEventBody : List (String × Json) :=
  [("error", Json.str "流式响应错误")]

/-- `POST /api/completions` handler (lines 345-377 with the streaming
variant at 382-425): no model check; forwards `req.body` unchanged.  With a
bad credential the non-streaming path answers a 500 JSON error while the
streaming path writes an SSE error frame (its catch at line 420). -/
def completionsMainPre (apiKey : String) (now : Nat) (dev : Bool)
    (body : JsObj) : PreAction :=
  if jsStrictEqTrue (objGet body "stream") then
    match generateToken apiKey 3600 now with
    | .ok _ => .upstreamCall "/completions" (Json.obj body) true
    | .error e => .streamErrorFrame (streamCatchBody e)
  else
    match generateToken apiKey 3600 now with
    | .ok _ => .upstreamCall "/completions" (Json.obj body) false
    | .error e => .jsonError 500 (catch500Body "九天模型调用失败" dev e)

/-- First-registered `POST /api/chat` handler (lines 430-462 with the
streaming variant at 467-510): same shape as `/api/completions` but against
the chat upstream endpoint.  No model check; forwards `req.body`
unchanged. -/
def chatMainPre (apiKey : String) (now : Nat) (dev : Bool)
    (body : JsObj) : PreAction :=
  if jsStrictEqTrue (objGet body "stream") then
    match generateToken apiKey 3600 now with
    | .ok _ => .upstreamCall "/chat/completions" (Json.obj body) true
    | .error e => .streamErrorFrame (streamCatchBody e)
  else
    match generateToken apiKey 3600 now with
    | .ok _ => .upstreamCall "/chat/completions" (Json.obj body) false
    | .error e => .jsonError 500 (catch500Body "九天模型调用失败" dev e)

/-- Destructuring with a default, `const \x7bk = dflt\x7d = body`: the default
applies only when the property is `undefined`. -/
def destrDefault (body : JsObj) (k : String) (dflt : Json) : Json :=
  match objGet body k with
  | .undefined => dflt
  | v => v

/-- `POST /api/generate` handler up to the upstream call (lines 545-591 and
657-668).  The model gate at lines 553-557 runs before the request
parameters are assembled and before any credential is minted, so an
unsupported model is rejected without any upstream interaction.  The catch
at lines 694-700 answers 500 with `\x7berror: "生成失败", detail\x7d` (no
stack field). -/
def generateCompatPre (apiKey : String) (now : Nat) (body : JsObj) :
    PreAction :=
  let model := objGet body "model"
  let prompt := objGet body "prompt"
  let stream := destrDefault body "stream" (Json.bool true)
  let options := destrDefault body "options" (Json.obj [])
  if !jsStrictEqStr model "jiutian-lan" then
    .jsonError 404
      [("error", Json.str ("模型 \x27" ++ jsToString model ++ "\x27 不存在，请使用 \x27jiutian-lan\x27"))]
  else
    match (do
      let temp ← jsGet options "temperature"
      let topP ← jsGet options "top_p"
      let params := Json.obj
        [("model", Json.str "jiutian-lan"), ("prompt", prompt),
         ("temperature", jsOr temp (Json.num (7 / 10))),
         ("top_p", jsOr topP (Json.num (9 / 10))),
         ("history", Json.arr []), ("stream", stream)]
      let _ ← generateToken apiKey 3600 now
      pure params : Except String Json) with
    | .ok params => .upstreamCall "/completions" params (truthy stream)
    | .error e => .jsonError 500 [("error", Json.str "生成失败"), ("detail", Json.str e)]

/-- Second-registered `POST /api/chat` handler (lines 707-750 and 820-831),
the Ollama-compatible variant, up to the upstream call.  Same model gate as
`/api/generate`; catch label `聊天失败`. -/
def chatCompatPre (apiKey : String) (now : Nat) (body : JsObj) : PreAction :=
  let model := objGet body "model"
  let messages := objGet body "messages"
  let stream := destrDefault body "stream" (Json.bool true)
  let options := destrDefault body "options" (Json.obj [])
  if !jsStrictEqStr model "jiutian-lan" then
    .jsonError 404
      [("error", Json.str ("模型 \x27" ++ jsToString model ++ "\x27 不存在，请使用 \x27jiutian-lan\x27"))]
  else
    match (do
      let temp ← jsGet options "temperature"
      let topP ← jsGet options "top_p"
      let params := Json.obj
        [("model", Json.str "jiutian-lan"), ("messages", messages),
         ("temperature", jsOr temp (Json.num (7 / 10))),
         ("top_p", jsOr topP (Json.num (9 / 10))),
         ("stream", stream)]
      let _ ← generateToken apiKey 3600 now
      pure params : Except String Json) with
    | .ok params => .upstreamCall "/chat/completions" params (truthy stream)
    | .error e => .jsonError 500 [("error", Json.str "聊天失败"), ("detail", Json.str e)]

/-! ## Streaming handler outcomes before the first byte

`handleStreamCompletions` (lines 382-425) and `handleStreamChat` (lines
467-510) mint a credential and await the upstream connection inside one
`try`; both failures land in the same `catch`, which writes a single
`data: `-framed error object — even though at that point no byte has been
written to the client.  `upstreamAccepted` stands for the result of the
awaited `axios.post` (error message on rejection). -/

inductive StreamPre where
  | started : StreamPre
  | catchFrame : List (String × Json) → StreamPre
deriving Repr

def handleStreamCompletionsOutcome (apiKey : String) (now : Nat)
    (upstreamAccepted : Except String Unit) : StreamPre :=
  match generateToken apiKey 3600 now with
  | .error e => .catchFrame (streamCatchBody e)
  | .ok _ =>
    match upstreamAccepted with
    | .error e => .catchFrame (streamCatchBody e)
    | .ok _ => .started

def handleStreamChatOutcome (apiKey : String) (now : Nat)
    (upstreamAccepted : Except String Unit) : StreamPre :=
  match generateToken apiKey 3600 now with
  | .error e => .catchFrame (streamCatchBody e)
  | .ok _ =>
    match upstreamAccepted with
    | .error e => .catchFrame (streamCatchBody e)
    | .ok _ => .started

/-! ## Helper lemmas about the sessions -/

/-- Concatenation of the texts of a list of upstream events. -/
def concatTexts : List UEvent → String
  | [] => ""
  | e :: es => e.text ++ concatTexts es

theorem concatTexts_length (ds : List UEvent) :
    (concatTexts ds).length = (ds.map (fun e => e.text.length)).sum := by
  induction ds with
  | nil => rfl
  | cons e es ih => simp [concatTexts, String.length_append, ih]

theorem genExtractText_textDelta (full t : String) :
    genExtractText full (genEventJson (.textDelta t)) = .ok (Json.str t, full ++ t) := by
  have h : genExtractText full (genEventJson (.textDelta t)) =
      if (t != "") = true then .ok (Json.str t, full ++ t) else .ok (Json.str "", full) := rfl
  rw [h]
  by_cases ht : t = ""
  · subst ht
    rw [if_neg (by simp)]
    simp
  · rw [if_pos (by simp [ht])]

theorem isFinishData_textDelta (t : String) :
    isFinishData (genEventJson (.textDelta t)) = .ok false := rfl

theorem genProcessData_textDelta (prompt t : String) (st : GenState) :
    genProcessData prompt st (genEventJson (.textDelta t)) =
      ({ fullResponse := st.fullResponse ++ t, ended := st.ended },
       [genContentFrame (Json.str t)]) := by
  unfold genProcessData
  rw [genExtractText_textDelta, isFinishData_textDelta]

theorem genProcessData_finish (prompt : String) (st : GenState) :
    genProcessData prompt st (genEventJson .finish) =
      ({ fullResponse := st.fullResponse, ended := true },
       [genContentFrame (Json.str ""), genFinalFrame prompt st.fullResponse]) := rfl

/-- Characterization of a whole generate session over deltas followed by the
finish marker: one content frame per delta, then the empty content frame the
handler also writes for the finish chunk, then the terminal frame. -/
theorem genRunEventsFrom_deltas_finish (prompt : String) (ds : List UEvent)
    (h : UEvent.finish ∉ ds) (st : GenState) (hst : st.ended = false) :
    genRunEventsFrom prompt st ((ds ++ [UEvent.finish]).map genEventJson) =
      ({ fullResponse := st.fullResponse ++ concatTexts ds, ended := true },
       ds.map (fun e => genContentFrame (Json.str e.text)) ++
         [genContentFrame (Json.str ""),
          genFinalFrame prompt (st.fullResponse ++ concatTexts ds)]) := by
  induction ds generalizing st with
  | nil =>
    simp only [List.nil_append, List.map_cons, List.map_nil, genRunEventsFrom,
      genProcessData_finish, hst, concatTexts]
    simp
  | cons e es ih =>
    match e with
    | .finish => exact absurd (List.mem_cons_self _ _) h
    | .textDelta t =>
      have hes : UEvent.finish ∉ es := fun hm => h (List.mem_cons_of_mem _ hm)
      simp only [List.cons_append, List.map_cons, genRunEventsFrom,
        genProcessData_textDelta, hst]
      simp only [List.append_eq]
      rw [ih hes { fullResponse := st.fullResponse ++ t, ended := false } rfl]
      simp [concatTexts, UEvent.text, String.append_assoc]

theorem genRunEvents_deltas_finish (prompt : String) (ds : List UEvent)
    (h : UEvent.finish ∉ ds) :
    genRunEvents prompt ((ds ++ [UEvent.finish]).map genEventJson) =
      ds.map (fun e => genContentFrame (Json.str e.text)) ++
        [genContentFrame (Json.str ""), genFinalFrame prompt (concatTexts ds)] := by
  unfold genRunEvents
  rw [genRunEventsFrom_deltas_finish prompt ds h { fullResponse := "", ended := false } rfl]
  simp

theorem chatExtractContent_textDelta (full t : String) :
    chatExtractContent full (chatEventJson (.textDelta t)) = .ok (Json.str t, full ++ t) := by
  have h : chatExtractContent full (chatEventJson (.textDelta t)) =
      if (t != "") = true then .ok (Json.str t, full ++ t) else .ok (Json.str "", full) := rfl
  rw [h]
  by_cases ht : t = ""
  · subst ht
    rw [if_neg (by simp)]
    simp
  · rw [if_pos (by simp [ht])]

theorem isFinishData_chatTextDelta (t : String) :
    isFinishData (chatEventJson (.textDelta t)) = .ok false := rfl

theorem chatProcessData_textDelta (t : String) (st : ChatState) :
    chatProcessData st (chatEventJson (.textDelta t)) =
      ({ fullContent := st.fullContent ++ t, ended := st.ended },
       [chatContentFrame (Json.str t)]) := by
  unfold chatProcessData
  rw [chatExtractContent_textDelta, isFinishData_chatTextDelta]

theorem chatProcessData_finish (st : ChatState) :
    chatProcessData st (chatEventJson .finish) =
      ({ fullContent := st.fullContent, ended := true },
       [chatContentFrame (Json.str ""), chatFinalFrame st.fullContent]) := rfl

theorem chatRunEventsFrom_deltas_finish (ds : List UEvent)
    (h : UEvent.finish ∉ ds) (st : ChatState) (hst : st.ended = false) :
    chatRunEventsFrom st ((ds ++ [UEvent.finish]).map chatEventJson) =
      ({ fullContent := st.fullContent ++ concatTexts ds, ended := true },
       ds.map (fun e => chatContentFrame (Json.str e.text)) ++
         [chatContentFrame (Json.str ""),
          chatFinalFrame (st.fullContent ++ concatTexts ds)]) := by
  induction ds generalizing st with
  | nil =>
    simp only [List.nil_append, List.map_cons, List.map_nil, chatRunEventsFrom,
      chatProcessData_finish, hst, concatTexts]
    simp
  | cons e es ih =>
    match e with
    | .finish => exact absurd (List.mem_cons_self _ _) h
    | .textDelta t =>
      have hes : UEvent.finish ∉ es := fun hm => h (List.mem_cons_of_mem _ hm)
      simp only [List.cons_append, List.map_cons, chatRunEventsFrom,
        chatProcessData_textDelta, hst]
      simp only [List.append_eq]
      rw [ih hes { fullContent := st.fullContent ++ t, ended := false } rfl]
      simp [concatTexts, UEvent.text, String.append_assoc]

theorem chatRunEvents_deltas_finish (ds : List UEvent) (h : UEvent.finish ∉ ds) :
    chatRunEvents ((ds ++ [UEvent.finish]).map chatEventJson) =
      ds.map (fun e => chatContentFrame (Json.str e.text)) ++
        [chatContentFrame (Json.str ""), chatFinalFrame (concatTexts ds)] := by
  unfold chatRunEvents
  rw [chatRunEventsFrom_deltas_finish ds h { fullContent := "", ended := false } rfl]
  simp

theorem lastOfShape {α : Type} (xs : List α) (a b : α) :
    (xs ++ [a, b]).getLast? = some b := by
  rw [show xs ++ [a, b] = (xs ++ [a]) ++ [b] from by simp]
  exact List.getLast?_concat _

theorem dropLastOfShape {α : Type} (xs : List α) (a b : α) :
    (xs ++ [a, b]).dropLast = xs ++ [a] := by
  rw [show xs ++ [a, b] = (xs ++ [a]) ++ [b] from by simp]
  exact List.dropLast_concat ..

theorem genHandleChunk_malformed (prompt : String) (st : GenState) (bad : String)
    (h1 : jsStartsWith bad "data: " = true) (h2 : jsonParse (bad.drop 6) = none) :
    genHandleChunk prompt st bad = (st, []) := by
  simp [genHandleChunk, h1, h2]

theorem chatHandleChunk_malformed (st : ChatState) (bad : String)
    (h1 : jsStartsWith bad "data: " = true) (h2 : jsonParse (bad.drop 6) = none) :
    chatHandleChunk st bad = (st, []) := by
  simp [chatHandleChunk, h1, h2]

theorem genRunFrom_malformed (prompt : String) (pre post : List String) (bad : String)
    (h1 : jsStartsWith bad "data: " = true) (h2 : jsonParse (bad.drop 6) = none)
    (st : GenState) :
    genRunFrom prompt st (pre ++ bad :: post) = genRunFrom prompt st (pre ++ post) := by
  induction pre generalizing st with
  | nil =>
    simp [genRunFrom, genHandleChunk_malformed prompt st bad h1 h2]
  | cons c cs ih =>
    simp only [List.cons_append, genRunFrom, List.append_eq]
    rw [ih]

theorem chatRunFrom_malformed (pre post : List String) (bad : String)
    (h1 : jsStartsWith bad "data: " = true) (h2 : jsonParse (bad.drop 6) = none)
    (st : ChatState) :
    chatRunFrom st (pre ++ bad :: post) = chatRunFrom st (pre ++ post) := by
  induction pre generalizing st with
  | nil =>
    simp [chatRunFrom, chatHandleChunk_malformed st bad h1 h2]
  | cons c cs ih =>
    simp only [List.cons_append, chatRunFrom, List.append_eq]
    rw [ih]

/-! ## Concrete scenario data -/

set_option maxRecDepth 100000

/-- Upstream chunk carrying one text delta, serialized the way the provider
frames its stream (the shapes follow the usage document in the repository). -/
def c1Chunk (t : String) : String :=
  "data: \x7b\"created\":1725502748,\"model\":\"jiutian-lan\",\"choices\":[\x7b\"delta\":\x7b\"index\":0,\"text\":\"" ++
    t ++ "\",\"type\":\"text\",\"status\":\"init\"\x7d\x7d],\"object\":\"chat.completion.chunk\"\x7d\n\n"

/-- Upstream finish chunk (delta with `status: "finish"` plus the usage
object), as in the provider examples. -/
def c1FinishChunk : String :=
  "data: \x7b\"created\":1725502748,\"usage\":\x7b\"completion_tokens\":6,\"prompt_tokens\":15,\"total_tokens\":21\x7d,\"model\":\"jiutian-lan\",\"choices\":[\x7b\"delta\":\x7b\"finish_reason\":\"stop\",\"index\":0,\"type\":\"text\",\"status\":\"finish\"\x7d\x7d],\"object\":\"chat.completion.chunk\"\x7d\n\n"

/-- The upstream delivery of claim C1: five one-character deltas, then the
finish marker, one event per network read. -/
def c1Chunks : List String :=
  [c1Chunk "2", c1Chunk "*", c1Chunk "3", c1Chunk "=", c1Chunk "6", c1FinishChunk]

/-- The downstream sequence asserted by claim C1, written from the words of
the spec (five content frames, then exactly one terminal frame with
`eval_count` 5 and `prompt_eval_count` 9, and nothing else); the fields the
claim leaves open are filled with the placeholder constants the spec
prescribes for the GENERATE_COMPAT terminal frame. -/
def c1ClaimedFrames : List GenFrame :=
  [genContentFrame (Json.str "2"), genContentFrame (Json.str "*"),
   genContentFrame (Json.str "3"), genContentFrame (Json.str "="),
   genContentFrame (Json.str "6"),
   { model := "jiutian-lan", response := Json.str "", done := true,
     context := some [1, 2, 3], total_duration := some 1000000000,
     load_duration := some 100000000, prompt_eval_count := some 9,
     prompt_eval_duration := some 200000000, eval_count := some 5,
     eval_duration := some 700000000 }]

/-- A complete well-formed upstream frame... -/
def c6Whole : String :=
  "data: \x7b\"choices\":[\x7b\"delta\":\x7b\"text\":\"hi\",\"status\":\"incr\"\x7d\x7d]\x7d\n\n"

/-- ...its first half, as cut by a network read mid-JSON... -/
def c6Part1 : String :=
  "data: \x7b\"choices\":[\x7b\"delta\":\x7b\"text\":\"h"

/-- ...and its second half. -/
def c6Part2 : String :=
  "i\",\"status\":\"incr\"\x7d\x7d]\x7d\n\n"

/-- A well-formed delta chunk used in the claim C7 witness. -/
def c7DeltaChunk : String :=
  "data: \x7b\"choices\":[\x7b\"delta\":\x7b\"text\":\"ok\",\"status\":\"incr\"\x7d\x7d]\x7d\n\n"

/-- A well-formed finish chunk used in the claim C7 witness. -/
def c7FinishChunk : String :=
  "data: \x7b\"choices\":[\x7b\"delta\":\x7b\"status\":\"finish\"\x7d\x7d]\x7d\n\n"

/-- A chunk whose JSON is malformed, used in the claim C7 witness. -/
def c7BadChunk : String := "data: \x7b\"choices\":oops"

/-- The token minted from the well-formed secret `id.key` at time 0, used in
the claim C9 witness. -/
def c9Token : SignedToken :=
  { headerClaims := jwtHeaderFields,
    payloadClaims := [("api_key", Json.str "id"), ("exp", Json.num 3600),
                      ("timestamp", Json.num 0)],
    mac := Mac.hmacSha256 jwtHeaderFields
      [("api_key", Json.str "id"), ("exp", Json.num 3600),
       ("timestamp", Json.num 0)] "key" }

/-- The token minted from the well-formed secret `id.key` at time 0, used in
the claim C10 witness. -/
def c10Token : SignedToken :=
  { headerClaims := jwtHeaderFields,
    payloadClaims := [("api_key", Json.str "id"), ("exp", Json.num 3600),
                      ("timestamp", Json.num 0)],
    mac := Mac.hmacSha256 jwtHeaderFields
      [("api_key", Json.str "id"), ("exp", Json.num 3600),
       ("timestamp", Json.num 0)] "key" }

/-! ## The claims -/

/-- Claim C1, counterexample.  The claim asserts that the GENERATE_COMPAT
scenario (deltas `2 * 3 = 6`, then the finish marker) produces exactly five
content frames followed by one terminal frame with `eval_count` 5 and
`prompt_eval_count` 9, and nothing else.  In fact the handler writes a
seventh frame: the unconditional `done: false` frame it emits for the
finish chunk as well (the write at line 620 runs before the finish test at
line 623), and the terminal frame carries `prompt_eval_count` 5
(`"2*3=?".length`), not 9. -/
theorem generate_scenario_counterexample :
    genRun "2*3=?" c1Chunks ≠ c1ClaimedFrames ∧
    (genRun "2*3=?" c1Chunks).length = 7 ∧ c1ClaimedFrames.length = 6 ∧
    ((genRun "2*3=?" c1Chunks).getLast?.map GenFrame.prompt_eval_count) =
      some (some 5) ∧
    (c1ClaimedFrames.getLast?.map GenFrame.prompt_eval_count) = some (some 9) := by
  refine ⟨?_, rfl, rfl, rfl, rfl⟩
  intro hEq
  have h7 : (genRun "2*3=?" c1Chunks).length = 7 := rfl
  have h6 : c1ClaimedFrames.length = 6 := rfl
  rw [hEq, h6] at h7
  exact absurd h7 (by decide)

/-- Claim C1, amended.  On the scenario upstream (deltas `2`, `*`, `3`, `=`,
`6`, then the finish marker, one event per read) the `/api/generate` stream
produces the five `(response: <char>, done: false)` frames, then a sixth
`(response: "", done: false)` frame written for the finish chunk, then
exactly one terminal frame with `done: true`, `eval_count` 5 and
`prompt_eval_count` 5, and nothing else. -/
theorem generate_scenario_amended :
    genRun "2*3=?" c1Chunks =
      [genContentFrame (Json.str "2"), genContentFrame (Json.str "*"),
       genContentFrame (Json.str "3"), genContentFrame (Json.str "="),
       genContentFrame (Json.str "6"), genContentFrame (Json.str ""),
       genFinalFrame "2*3=?" "2*3=6"] := rfl

/-- Claim C2: for every upstream event sequence that ends in exactly one
finish marker (modelled: a list of text deltas with no finish marker,
followed by the finish marker), both streaming compat sessions deliver
exactly one terminal frame (`done: true`); it is the last frame written,
and every earlier frame of the session has `done: false`. -/
theorem streaming_terminal_frame_unique (prompt : String) (ds : List UEvent)
    (h : UEvent.finish ∉ ds) :
    ((genRunEvents prompt ((ds ++ [UEvent.finish]).map genEventJson)).getLast? =
        some (genFinalFrame prompt (concatTexts ds)) ∧
      (genFinalFrame prompt (concatTexts ds)).done = true ∧
      ((genRunEvents prompt ((ds ++ [UEvent.finish]).map genEventJson)).filter
          (fun f => f.done)).length = 1 ∧
      ∀ f ∈ (genRunEvents prompt ((ds ++ [UEvent.finish]).map genEventJson)).dropLast,
        f.done = false) ∧
    ((chatRunEvents ((ds ++ [UEvent.finish]).map chatEventJson)).getLast? =
        some (chatFinalFrame (concatTexts ds)) ∧
      (chatFinalFrame (concatTexts ds)).done = true ∧
      ((chatRunEvents ((ds ++ [UEvent.finish]).map chatEventJson)).filter
          (fun f => f.done)).length = 1 ∧
      ∀ f ∈ (chatRunEvents ((ds ++ [UEvent.finish]).map chatEventJson)).dropLast,
        f.done = false) := by
  have hg := genRunEvents_deltas_finish prompt ds h
  have hc := chatRunEvents_deltas_finish ds h
  refine ⟨⟨?_, rfl, ?_, ?_⟩, ?_, rfl, ?_, ?_⟩
  · rw [hg]
    exact lastOfShape ..
  · rw [hg, List.filter_append]
    have h1 : (ds.map (fun e => genContentFrame (Json.str e.text))).filter
        (fun f => f.done) = [] := by
      rw [List.filter_eq_nil_iff]
      intro a ha
      rcases List.mem_map.mp ha with ⟨e, _, rfl⟩
      simp [genContentFrame]
    rw [h1]
    rfl
  · rw [hg, dropLastOfShape]
    intro f hf
    rcases List.mem_append.mp hf with hl | hr
    · rcases List.mem_map.mp hl with ⟨e, _, rfl⟩
      rfl
    · rcases List.mem_singleton.mp hr with rfl
      rfl
  · rw [hc]
    exact lastOfShape ..
  · rw [hc, List.filter_append]
    have h1 : (ds.map (fun e => chatContentFrame (Json.str e.text))).filter
        (fun f => f.done) = [] := by
      rw [List.filter_eq_nil_iff]
      intro a ha
      rcases List.mem_map.mp ha with ⟨e, _, rfl⟩
      simp [chatContentFrame]
    rw [h1]
    rfl
  · rw [hc, dropLastOfShape]
    intro f hf
    rcases List.mem_append.mp hf with hl | hr
    · rcases List.mem_map.mp hl with ⟨e, _, rfl⟩
      rfl
    · rcases List.mem_singleton.mp hr with rfl
      rfl

theorem streaming_terminal_frame_unique_witness :
    UEvent.finish ∉ [UEvent.textDelta "hi"] ∧
    (genRunEvents "p" (([UEvent.textDelta "hi"] ++ [UEvent.finish]).map genEventJson)).getLast? =
      some (genFinalFrame "p" (concatTexts [UEvent.textDelta "hi"])) :=
  ⟨by decide, (streaming_terminal_frame_unique "p" [UEvent.textDelta "hi"] (by decide)).1.1⟩

/-- Claim C3: in both streaming compat sessions the `eval_count` of the
terminal frame equals the sum of the lengths of all delta texts observed in
the session.  The accumulation is a pure function of the event list
(`genRunEvents` and `chatRunEvents` are functions), so replaying the same
sequence yields the same reported length by construction. -/
theorem terminal_eval_count_is_sum_of_delta_lengths (prompt : String)
    (ds : List UEvent) (h : UEvent.finish ∉ ds) :
    ((genRunEvents prompt ((ds ++ [UEvent.finish]).map genEventJson)).getLast? =
        some (genFinalFrame prompt (concatTexts ds)) ∧
      (genFinalFrame prompt (concatTexts ds)).eval_count =
        some (((ds.map (fun e => e.text.length)).sum : Nat) : Int)) ∧
    ((chatRunEvents ((ds ++ [UEvent.finish]).map chatEventJson)).getLast? =
        some (chatFinalFrame (concatTexts ds)) ∧
      (chatFinalFrame (concatTexts ds)).eval_count =
        some (((ds.map (fun e => e.text.length)).sum : Nat) : Int)) := by
  refine ⟨⟨?_, ?_⟩, ?_, ?_⟩
  · rw [genRunEvents_deltas_finish prompt ds h]
    exact lastOfShape ..
  · simp [genFinalFrame, concatTexts_length]
  · rw [chatRunEvents_deltas_finish ds h]
    exact lastOfShape ..
  · simp [chatFinalFrame, concatTexts_length]

theorem terminal_eval_count_is_sum_of_delta_lengths_witness :
    UEvent.finish ∉ [UEvent.textDelta "hi"] ∧
    (genFinalFrame "p" (concatTexts [UEvent.textDelta "hi"])).eval_count =
      some ((([UEvent.textDelta "hi"].map (fun e => e.text.length)).sum : Nat) : Int) :=
  ⟨by decide,
   (terminal_eval_count_is_sum_of_delta_lengths "p" [UEvent.textDelta "hi"] (by decide)).1.2⟩

/-- Claim C4: a `POST /api/generate` request whose model identifier is not
`jiutian-lan` is answered with a 404 error naming the requested and the
supported model identifier.  The outcome is `jsonError`, not
`upstreamCall`: the gate at lines 553-557 returns before the request
parameters are assembled, before any credential is minted and before any
upstream connection is opened, so the rejection is synchronous. -/
theorem generate_unsupported_model_rejected (apiKey : String) (now : Nat)
    (body : JsObj) (m : String)
    (hm : objGet body "model" = Json.str m) (hne : m ≠ "jiutian-lan") :
    generateCompatPre apiKey now body =
      PreAction.jsonError 404
        [("error", Json.str ("模型 \x27" ++ m ++ "\x27 不存在，请使用 \x27jiutian-lan\x27"))] := by
  unfold generateCompatPre
  simp only [hm]
  rw [show jsStrictEqStr (Json.str m) "jiutian-lan" = false from by
    simp [jsStrictEqStr, hne]]
  rfl

theorem generate_unsupported_model_rejected_witness :
    objGet [("model", Json.str "other-model")] "model" = Json.str "other-model" ∧
    "other-model" ≠ "jiutian-lan" ∧
    generateCompatPre "id.key" 0 [("model", Json.str "other-model")] =
      PreAction.jsonError 404
        [("error", Json.str ("模型 \x27" ++ "other-model" ++ "\x27 不存在，请使用 \x27jiutian-lan\x27"))] :=
  ⟨rfl, by decide,
   generate_unsupported_model_rejected "id.key" 0 [("model", Json.str "other-model")]
     "other-model" rfl (by decide)⟩

/-- Claim C5: the claim (and the spec) state that every streaming
`POST /api/chat` request is model-gated and answered with CHAT_COMPAT
frames.  The code registers the Ollama-compatible chat handler second on
the same method and path, so Express dispatches every `/api/chat` request
to the first handler, which performs no model check and forwards the body
to the upstream provider as a raw pass-through; the compat handler —
which would indeed 404 on a foreign model — is unreachable, contradicting
the intent documented by the file header and the startup log, which
advertise an Ollama-compatible chat endpoint.  This theorem evaluates the
code at the failing input `POST /api/chat`,
`(model: "other-model", stream: true)` with a well-formed configured
secret. -/
theorem chat_compat_route_shadowed :
    dispatch "POST" "/api/chat" = some RouteHandler.chatMain ∧
    RouteHandler.chatMain ≠ RouteHandler.chatCompat ∧
    chatMainPre "id.key" 0 false
        [("model", Json.str "other-model"), ("stream", Json.bool true)] =
      PreAction.upstreamCall "/chat/completions"
        (Json.obj [("model", Json.str "other-model"), ("stream", Json.bool true)]) true ∧
    chatCompatPre "id.key" 0
        [("model", Json.str "other-model"), ("stream", Json.bool true)] =
      PreAction.jsonError 404
        [("error", Json.str "模型 \x27other-model\x27 不存在，请使用 \x27jiutian-lan\x27")] :=
  ⟨rfl, by decide, rfl, rfl⟩

/-- Claim C6, counterexample.  The claim asserts the decoder buffers
partial frames across network reads and produces the same decoded sequence
as a single-chunk delivery.  Delivering the same bytes whole versus split
in two reads gives different downstream output: the whole chunk yields one
content frame, while the split delivery yields nothing (the first half
fails `JSON.parse` and is dropped; the second half does not start with
`data: ` and is ignored). -/
theorem decoder_split_frame_counterexample :
    c6Part1 ++ c6Part2 = c6Whole ∧
    genRun "p" [c6Whole] = [genContentFrame (Json.str "hi")] ∧
    genRun "p" [c6Part1, c6Part2] = [] ∧
    genRun "p" [c6Whole] ≠ genRun "p" [c6Part1, c6Part2] := by
  refine ⟨rfl, rfl, rfl, ?_⟩
  intro hEq
  have h1 : (genRun "p" [c6Whole]).length = 1 := rfl
  have h0 : (genRun "p" [c6Part1, c6Part2]).length = 0 := rfl
  rw [hEq, h0] at h1
  exact absurd h1 (by decide)

/-- Claim C6, amended.  The data handlers do not buffer across reads: a
chunk that does not begin with `data: ` is ignored outright, a chunk that
begins with `data: ` but whose remainder fails `JSON.parse` is dropped
(state unchanged, nothing written), and only a chunk carrying one complete
`data: `-prefixed JSON event is parsed and processed.  Hence an event split
across reads is lost rather than reassembled, while the session itself
continues. -/
theorem decoder_no_buffering (prompt : String) (st : GenState) (cst : ChatState)
    (chunk : String) :
    (jsStartsWith chunk "data: " = false →
      genHandleChunk prompt st chunk = (st, []) ∧
      chatHandleChunk cst chunk = (cst, [])) ∧
    (jsStartsWith chunk "data: " = true → jsonParse (chunk.drop 6) = none →
      genHandleChunk prompt st chunk = (st, []) ∧
      chatHandleChunk cst chunk = (cst, [])) ∧
    (∀ d, jsStartsWith chunk "data: " = true → jsonParse (chunk.drop 6) = some d →
      genHandleChunk prompt st chunk = genProcessData prompt st d ∧
      chatHandleChunk cst chunk = chatProcessData cst d) := by
  refine ⟨fun h1 => ⟨?_, ?_⟩, fun h1 h2 => ⟨?_, ?_⟩, fun d h1 h2 => ⟨?_, ?_⟩⟩
  · simp [genHandleChunk, h1]
  · simp [chatHandleChunk, h1]
  · simp [genHandleChunk, h1, h2]
  · simp [chatHandleChunk, h1, h2]
  · simp [genHandleChunk, h1, h2]
  · simp [chatHandleChunk, h1, h2]

theorem decoder_no_buffering_witness :
    jsStartsWith "data: nonsense" "data: " = true ∧
    jsonParse ("data: nonsense".drop 6) = none ∧
    genHandleChunk "p" { fullResponse := "", ended := false } "data: nonsense" =
      ({ fullResponse := "", ended := false }, []) :=
  ⟨rfl, rfl,
   ((decoder_no_buffering "p" { fullResponse := "", ended := false }
      { fullContent := "", ended := false } "data: nonsense").2.1 rfl rfl).1⟩

/-- Claim C7: a single malformed upstream frame does not terminate a
streaming session.  Inserting a chunk that starts with `data: ` but whose
JSON fails to parse anywhere into a session leaves the delivered downstream
frames exactly those of the session without it — the bad frame is dropped
by the per-chunk catch, every later well-formed frame is still decoded and
delivered, and the session reaches the same terminal frame.  This holds for
both the `/api/generate` and the compat `/api/chat` stream handlers. -/
theorem malformed_frame_does_not_end_session (prompt : String)
    (pre post : List String) (bad : String)
    (h1 : jsStartsWith bad "data: " = true) (h2 : jsonParse (bad.drop 6) = none) :
    genRun prompt (pre ++ bad :: post) = genRun prompt (pre ++ post) ∧
    chatRun (pre ++ bad :: post) = chatRun (pre ++ post) := by
  constructor
  · unfold genRun
    rw [genRunFrom_malformed prompt pre post bad h1 h2]
  · unfold chatRun
    rw [chatRunFrom_malformed pre post bad h1 h2]

theorem malformed_frame_does_not_end_session_witness :
    jsStartsWith c7BadChunk "data: " = true ∧
    jsonParse (c7BadChunk.drop 6) = none ∧
    genRun "p" ([c7DeltaChunk] ++ c7BadChunk :: [c7FinishChunk]) =
      genRun "p" ([c7DeltaChunk] ++ [c7FinishChunk]) :=
  ⟨rfl, rfl,
   (malformed_frame_does_not_end_session "p" [c7DeltaChunk] [c7FinishChunk]
      c7BadChunk rfl rfl).1⟩

/-- Claim C8: minting from a well-formed secret `<identifier>.<signingKey>`
(modelled: the dot-split of the secret is exactly the identifier and a
nonempty signing key) produces the three-part signed token whose payload
claims are the key identifier, expiry = issuance instant + lifetime, and
the issuance timestamp; the header marks the token `sign_type: "SIGN"`
with algorithm HS256, and the signature is the HMAC-SHA256 over the header
and payload under the signing key.  Minting a secret that is not
splittable (no dot: the split returns the whole string) fails with the
`无效的 API Key` error. -/
theorem generateToken_contract (apiKey id key : String) (expSeconds now : Nat)
    (hsplit : jsSplitDot apiKey = [id, key]) (hkey : key ≠ "") :
    generateToken apiKey expSeconds now =
      Except.ok
        { headerClaims := jwtHeaderFields,
          payloadClaims := [("api_key", Json.str id),
                            ("exp", Json.num ((now + expSeconds : Nat) : Rat)),
                            ("timestamp", Json.num ((now : Nat) : Rat))],
          mac := Mac.hmacSha256 jwtHeaderFields
            [("api_key", Json.str id),
             ("exp", Json.num ((now + expSeconds : Nat) : Rat)),
             ("timestamp", Json.num ((now : Nat) : Rat))] key } ∧
    jwtHeaderFields.lookup "sign_type" = some (Json.str "SIGN") ∧
    jwtHeaderFields.lookup "alg" = some (Json.str "HS256") ∧
    (∀ apiKey2 : String, jsSplitDot apiKey2 = [apiKey2] →
      generateToken apiKey2 expSeconds now = Except.error "无效的 API Key") := by
  refine ⟨?_, rfl, rfl, ?_⟩
  · unfold generateToken
    simp only [hsplit]
    simp [jwtSign, hkey]
  · intro a ha
    unfold generateToken
    simp only [ha]
    simp [jwtSign]

theorem generateToken_contract_witness :
    jsSplitDot "abc.def" = ["abc", "def"] ∧ "def" ≠ "" ∧
    generateToken "abc.def" 3600 1700000000 =
      Except.ok
        { headerClaims := jwtHeaderFields,
          payloadClaims := [("api_key", Json.str "abc"),
                            ("exp", Json.num ((1700000000 + 3600 : Nat) : Rat)),
                            ("timestamp", Json.num ((1700000000 : Nat) : Rat))],
          mac := Mac.hmacSha256 jwtHeaderFields
            [("api_key", Json.str "abc"),
             ("exp", Json.num ((1700000000 + 3600 : Nat) : Rat)),
             ("timestamp", Json.num ((1700000000 : Nat) : Rat))] "def" } :=
  ⟨rfl, by decide,
   (generateToken_contract "abc.def" "abc" "def" 3600 1700000000 rfl (by decide)).1⟩

/-- Claim C9, counterexample.  The claim states that every error discovered
before the first byte is written — including credential-minting failure —
produces a structured JSON error body, and that detail appears only in
development mode.  Both parts fail: a streaming `/api/completions` request
with a malformed configured secret fails before any byte is written, yet
the handler catch answers with an event-stream `data:` frame, not a JSON
error body; and with development mode off, the non-streaming 500 body still
carries the `detail` field (only `stack` is gated). -/
theorem error_body_shape_counterexample :
    handleStreamCompletionsOutcome "badkey" 0 (Except.ok ()) =
      StreamPre.catchFrame
        [("error", Json.str "九天模型调用失败"), ("detail", Json.str "无效的 API Key")] ∧
    completionsMainPre "badkey" 0 false [] =
      PreAction.jsonError 500
        [("error", Json.str "九天模型调用失败"), ("detail", Json.str "无效的 API Key")] ∧
    (catch500Body "九天模型调用失败" false "无效的 API Key").lookup "detail" =
      some (Json.str "无效的 API Key") :=
  ⟨rfl, rfl, rfl⟩

/-- Claim C9, amended.  Errors caught on the non-streaming paths produce a
500 JSON body with the stable fields `error` and `detail` (the error
message, always present) plus `stack` exactly when the development flag is
set; in the streaming handlers every caught error — credential-minting
failure and upstream rejection included, both of which occur before any
byte reaches the client — is written as a single event-stream frame
carrying `error` and `detail` fields; a mid-stream `error` event is
encoded as one final event-stream frame carrying an `error` field. -/
theorem error_propagation_amended (badKey goodKey e ue : String) (now : Nat)
    (dev : Bool) (tok : SignedToken) (body : JsObj)
    (hbad : generateToken badKey 3600 now = Except.error e)
    (hgood : generateToken goodKey 3600 now = Except.ok tok)
    (hns : jsStrictEqTrue (objGet body "stream") = false) :
    completionsMainPre badKey now dev body =
      PreAction.jsonError 500
        ([("error", Json.str "九天模型调用失败"), ("detail", Json.str e)] ++
          (if dev then [("stack", Json.str (stackOf e))] else [])) ∧
    handleStreamCompletionsOutcome badKey now (Except.ok ()) =
      StreamPre.catchFrame
        [("error", Json.str "九天模型调用失败"), ("detail", Json.str e)] ∧
    handleStreamCompletionsOutcome goodKey now (Except.error ue) =
      StreamPre.catchFrame
        [("error", Json.str "九天模型调用失败"), ("detail", Json.str ue)] ∧
    handleStreamChatOutcome badKey now (Except.ok ()) =
      StreamPre.catchFrame
        [("error", Json.str "九天模型调用失败"), ("detail", Json.str e)] ∧
    streamErrorEventBody.lookup "error" = some (Json.str "流式响应错误") := by
  refine ⟨?_, ?_, ?_, ?_, rfl⟩
  · simp [completionsMainPre, hns, hbad, catch500Body, streamCatchBody]
  · simp [handleStreamCompletionsOutcome, hbad, streamCatchBody]
  · simp [handleStreamCompletionsOutcome, hgood, streamCatchBody]
  · simp [handleStreamChatOutcome, hbad, streamCatchBody]

theorem error_propagation_amended_witness :
    generateToken "badkey" 3600 0 = Except.error "无效的 API Key" ∧
    generateToken "id.key" 3600 0 = Except.ok c9Token ∧
    jsStrictEqTrue (objGet ([] : JsObj) "stream") = false ∧
    completionsMainPre "badkey" 0 true [] =
      PreAction.jsonError 500
        ([("error", Json.str "九天模型调用失败"),
          ("detail", Json.str "无效的 API Key")] ++
          (if true then [("stack", Json.str (stackOf "无效的 API Key"))] else [])) :=
  ⟨rfl, rfl, rfl,
   (error_propagation_amended "badkey" "id.key" "无效的 API Key" "socket hang up"
      0 true c9Token [] rfl rfl rfl).1⟩

/-- Claim C10 (implicit): model validation is performed only by the
reachable `/api/generate` handler — `POST /api/completions` and the
first-registered (and therefore dispatched) `POST /api/chat` handler
forward the request body to the upstream provider unchanged, opening an
upstream connection for every model string instead of answering a
not-found error; the streaming flag is just `req.body.stream === true`. -/
theorem passthrough_endpoints_no_model_gate :
    dispatch "POST" "/api/completions" = some RouteHandler.completionsMain ∧
    dispatch "POST" "/api/chat" = some RouteHandler.chatMain ∧
    ∀ (apiKey : String) (now : Nat) (dev : Bool) (body : JsObj) (tok : SignedToken),
      generateToken apiKey 3600 now = Except.ok tok →
      completionsMainPre apiKey now dev body =
        PreAction.upstreamCall "/completions" (Json.obj body)
          (jsStrictEqTrue (objGet body "stream")) ∧
      chatMainPre apiKey now dev body =
        PreAction.upstreamCall "/chat/completions" (Json.obj body)
          (jsStrictEqTrue (objGet body "stream")) := by
  refine ⟨rfl, rfl, fun apiKey now dev body tok htok => ⟨?_, ?_⟩⟩
  · by_cases hs : jsStrictEqTrue (objGet body "stream") = true
    · simp [completionsMainPre, hs, htok]
    · simp only [Bool.not_eq_true] at hs
      simp [completionsMainPre, hs, htok]
  · by_cases hs : jsStrictEqTrue (objGet body "stream") = true
    · simp [chatMainPre, hs, htok]
    · simp only [Bool.not_eq_true] at hs
      simp [chatMainPre, hs, htok]

theorem passthrough_endpoints_no_model_gate_witness :
    generateToken "id.key" 3600 0 = Except.ok c10Token ∧
    completionsMainPre "id.key" 0 false
        [("model", Json.str "unknown-model"), ("stream", Json.bool true)] =
      PreAction.upstreamCall "/completions"
        (Json.obj [("model", Json.str "unknown-model"), ("stream", Json.bool true)])
        (jsStrictEqTrue (objGet
          [("model", Json.str "unknown-model"), ("stream", Json.bool true)] "stream")) :=
  ⟨rfl,
   ((passthrough_endpoints_no_model_gate).2.2 "id.key" 0 false
      [("model", Json.str "unknown-model"), ("stream", Json.bool true)]
      c10Token rfl).1⟩
